import Mathlib

/-!
Verification of the post CRUD service in `src/main.py`.

The service stores rows of a single `posts` table (columns `id`, `title`,
`content`) and exposes five route handlers: `read_root`, `get_posts`,
`get_post`, `create_post`, `update_post`, `delete_post`.  We embed the
database session shallowly: the durable store is a list of rows together
with the next server-generated primary key.  Each handler becomes a pure
function from the request data and the store to a response paired with the
store left behind by the request.  A possible `SQLAlchemyError` raised by
the persistence layer during the handler body is modelled by an optional
error argument carrying the underlying message; the handler then performs
the `db.rollback()` of the `except` branch and the response is the
`HTTPException(status_code=500, detail=str(e))`.  For the read handlers and
for `delete_post` every statement of the `try` block precedes the point
where the transaction commits, so an error always leaves the committed
store unchanged.  `create_post` and `update_post`, however, also run
`db.refresh(...)` after `db.commit()` inside the same `try`: an error
raised there is caught too, but the rollback cannot undo the already
committed write, so the 500 response coexists with the mutated store.
Their error argument therefore records on which side of the commit the
error was raised (`StoreErr`).
-/

namespace BlogApi

/-- A row of the `posts` table (class `PostModel`, `src/main.py` lines 29-33):
integer primary key `id`, text `title`, text `content`. -/
structure PostModel where
  id : Nat
  title : String
  content : String
deriving DecidableEq, Repr

/-- The request body schema (pydantic class `Post`, `src/main.py` lines 50-52).
It has exactly the fields `title` and `content`; there is no `id` field. -/
structure Post where
  title : String
  content : String
deriving DecidableEq, Repr

/-- The durable state of the `posts` table: its rows, plus the next value the
store will hand out for the server-generated primary key. -/
structure Store where
  rows : List PostModel
  nextId : Nat
deriving DecidableEq, Repr

/-- Outcome of a handler: either a JSON body, or an `HTTPException` with a
status code and a detail message. -/
inductive Result (α : Type) where
  | ok (body : α)
  | httpError (status : Nat) (detail : String)
deriving DecidableEq, Repr

/-- The fixed not-found detail used by all three id-addressed handlers. -/
def msg404 : String := "Post no encontrado"

/-- `GET /` (`read_root`, `src/main.py` lines 64-66): a constant greeting,
no data access. -/
def read_root (db : Store) : String × Store :=
  ("Bienvenido a la API de Articulos", db)

/-- `GET /posts` (`get_posts`, `src/main.py` lines 68-74):
`db.query(PostModel).all()` returns every row; a store error becomes a 500
with the underlying message. -/
def get_posts (err : Option String) (db : Store) : Result (List PostModel) × Store :=
  match err with
  | some e => (Result.httpError 500 e, db)
  | none => (Result.ok db.rows, db)

/-- `GET /posts/{post_id}` (`get_post`, `src/main.py` lines 76-84):
`filter(PostModel.id == post_id).first()`, then the row or a 404. -/
def get_post (post_id : Nat) (err : Option String) (db : Store) :
    Result PostModel × Store :=
  match err with
  | some e => (Result.httpError 500 e, db)
  | none =>
    match db.rows.find? (fun r => r.id == post_id) with
    | some post => (Result.ok post, db)
    | none => (Result.httpError 404 msg404, db)

/-- Where, relative to `db.commit()`, a `SQLAlchemyError` is raised inside the
`try` block of `create_post` or `update_post`: `beforeCommit` covers the
statement build-up and the commit itself (the write is still pending, so the
`except` branch's `db.rollback()` discards it); `afterCommit` covers the
`db.refresh(...)` that follows the commit (`src/main.py` lines 92 and 106: the
write is already durable and the rollback cannot undo it). -/
inductive StoreErr where
  | beforeCommit (e : String)
  | afterCommit (e : String)
deriving DecidableEq, Repr

/-- `POST /posts` (`create_post`, `src/main.py` lines 86-96): build a row from
the body with the store-assigned id, `add`/`commit`/`refresh`, return it; on a
store error, `rollback` and raise a 500.  An error before or at the commit
leaves the committed store unchanged; an error raised by the `refresh` after
the commit leaves the inserted row in place. -/
def create_post (post : Post) (err : Option StoreErr) (db : Store) :
    Result PostModel × Store :=
  match err with
  | some (StoreErr.beforeCommit e) => (Result.httpError 500 e, db)
  | some (StoreErr.afterCommit e) =>
    let post_data : PostModel := ⟨db.nextId, post.title, post.content⟩
    (Result.httpError 500 e, ⟨db.rows ++ [post_data], db.nextId + 1⟩)
  | none =>
    let post_data : PostModel := ⟨db.nextId, post.title, post.content⟩
    (Result.ok post_data, ⟨db.rows ++ [post_data], db.nextId + 1⟩)

/-- `PUT /posts/{post_id}` (`update_post`, `src/main.py` lines 98-111): fetch
the row by primary key; if present overwrite its `title` and `content` and
commit, returning the refreshed row; otherwise 404; on a store error,
`rollback` and raise a 500.  An error before or at the commit leaves the
committed store unchanged; an error raised by the `refresh` after the commit
leaves the updated row in place.  On the not-found path the 404 is raised
before the commit is ever reached, so a post-commit error cannot occur
there. -/
def update_post (post_id : Nat) (post : Post) (err : Option StoreErr) (db : Store) :
    Result PostModel × Store :=
  match err with
  | some (StoreErr.beforeCommit e) => (Result.httpError 500 e, db)
  | some (StoreErr.afterCommit e) =>
    match db.rows.find? (fun r => r.id == post_id) with
    | some _ =>
      (Result.httpError 500 e,
       ⟨db.rows.map (fun r => if r.id == post_id then ⟨r.id, post.title, post.content⟩ else r),
        db.nextId⟩)
    | none => (Result.httpError 404 msg404, db)
  | none =>
    match db.rows.find? (fun r => r.id == post_id) with
    | some db_post =>
      (Result.ok ⟨db_post.id, post.title, post.content⟩,
       ⟨db.rows.map (fun r => if r.id == post_id then ⟨r.id, post.title, post.content⟩ else r),
        db.nextId⟩)
    | none => (Result.httpError 404 msg404, db)

/-- `DELETE /posts/{post_id}` (`delete_post`, `src/main.py` lines 113-124):
fetch the row by primary key; if present delete it and commit, returning the
row as fetched before the deletion; otherwise 404; on a store error,
`rollback` and raise a 500. -/
def delete_post (post_id : Nat) (err : Option String) (db : Store) :
    Result PostModel × Store :=
  match err with
  | some e => (Result.httpError 500 e, db)
  | none =>
    match db.rows.find? (fun r => r.id == post_id) with
    | some db_post =>
      (Result.ok db_post, ⟨db.rows.filter (fun r => !(r.id == post_id)), db.nextId⟩)
    | none => (Result.httpError 404 msg404, db)

/-- The invariant the relational store maintains for the `posts` table:
the server-generated next id is fresh, and `id` is a primary key, so no two
rows share an id. -/
def Store.WF (s : Store) : Prop :=
  (∀ r ∈ s.rows, r.id < s.nextId) ∧ s.rows.Pairwise (fun a b => a.id ≠ b.id)

instance (s : Store) : Decidable s.WF := by
  unfold Store.WF
  infer_instance

/-- A concrete well-formed store used to instantiate hypotheses. -/
def sampleStore : Store := ⟨[⟨1, "hola", "mundo"⟩, ⟨2, "adios", "mundo"⟩], 3⟩

/-- If no element of the first list satisfies the predicate, searching the
concatenation searches the second list. -/
theorem find?_append_none {α : Type} {l₁ l₂ : List α} {p : α → Bool}
    (h : l₁.find? p = none) : (l₁ ++ l₂).find? p = l₂.find? p := by
  induction l₁ with
  | nil => rfl
  | cons a t ih =>
    rw [List.find?_cons] at h
    rw [List.cons_append, List.find?_cons]
    cases hp : p a with
    | true => rw [hp] at h; exact absurd h (by simp)
    | false => rw [hp] at h; exact ih h

/-- On a list whose elements have pairwise distinct ids, `find?` for a given
id returns exactly the member carrying that id. -/
theorem find?_eq_of_mem_pairwise {l : List PostModel} {r : PostModel} {i : Nat}
    (hp : l.Pairwise (fun a b => a.id ≠ b.id)) (hr : r ∈ l) (hid : r.id = i) :
    l.find? (fun x => x.id == i) = some r := by
  induction l with
  | nil => cases hr
  | cons a t ih =>
    rcases List.mem_cons.mp hr with h | h
    · subst h
      rw [List.find?_cons]
      simp [hid]
    · have ha : a.id ≠ i := fun hc => (List.pairwise_cons.mp hp).1 r h (hc.trans hid.symm)
      have hb : (a.id == i) = false := by simp [ha]
      rw [List.find?_cons, hb]
      exact ih (List.pairwise_cons.mp hp).2 h

/-- If every id in the list differs from `i`, `find?` for `i` fails. -/
theorem find?_eq_none_of_forall_ne {l : List PostModel} {i : Nat}
    (h : ∀ r ∈ l, r.id ≠ i) : l.find? (fun x => x.id == i) = none := by
  rw [List.find?_eq_none]
  intro x hx
  simp [h x hx]

/-- C1: creating a post and then fetching by the returned id yields a post
with the same title and content (`create_post` then `get_post`). -/
theorem create_then_get (title content : String) (s : Store) (h : Store.WF s) :
    ∃ (row : PostModel) (s2 : Store),
      create_post ⟨title, content⟩ none s = (Result.ok row, s2) ∧
      row.title = title ∧ row.content = content ∧
      get_post row.id none s2 = (Result.ok row, s2) := by
  have hnone : s.rows.find? (fun x => x.id == s.nextId) = none :=
    find?_eq_none_of_forall_ne (fun r hr => Nat.ne_of_lt (h.1 r hr))
  have hget : get_post s.nextId none ⟨s.rows ++ [⟨s.nextId, title, content⟩], s.nextId + 1⟩
      = (Result.ok ⟨s.nextId, title, content⟩,
         ⟨s.rows ++ [⟨s.nextId, title, content⟩], s.nextId + 1⟩) := by
    unfold get_post
    rw [find?_append_none hnone]
    simp [List.find?_cons]
  have hcreate : create_post ⟨title, content⟩ none s
      = (Result.ok ⟨s.nextId, title, content⟩,
         ⟨s.rows ++ [⟨s.nextId, title, content⟩], s.nextId + 1⟩) := rfl
  exact ⟨⟨s.nextId, title, content⟩, ⟨s.rows ++ [⟨s.nextId, title, content⟩], s.nextId + 1⟩,
    hcreate, rfl, rfl, hget⟩

/-- C1 witness: the theorem instantiated on `sampleStore`. -/
theorem create_then_get_witness :
    Store.WF sampleStore ∧
    ∃ (row : PostModel) (s2 : Store),
      create_post ⟨"t", "c"⟩ none sampleStore = (Result.ok row, s2) ∧
      row.title = "t" ∧ row.content = "c" ∧
      get_post row.id none s2 = (Result.ok row, s2) :=
  ⟨by decide, create_then_get "t" "c" sampleStore (by decide)⟩

/-- C2: the rows `get_posts` returns are exactly the rows of the store — the
set of posts that have been created and not deleted — each appearing, nothing
else appearing; only membership (not order) is asserted. -/
theorem list_exact (s : Store) (rows : List PostModel)
    (h : get_posts none s = (Result.ok rows, s)) :
    ∀ r : PostModel, r ∈ rows ↔ r ∈ s.rows := by
  have : Result.ok (α := List PostModel) rows = Result.ok s.rows := congrArg Prod.fst h.symm
  cases this
  intro r
  exact Iff.rfl

/-- C2 witness: the theorem instantiated on `sampleStore`. -/
theorem list_exact_witness :
    get_posts none sampleStore = (Result.ok sampleStore.rows, sampleStore) ∧
    ∀ r : PostModel, r ∈ sampleStore.rows ↔ r ∈ sampleStore.rows :=
  ⟨rfl, list_exact sampleStore sampleStore.rows rfl⟩

/-- C3: updating an id held by no row returns the fixed 404 and leaves the
store untouched. -/
theorem update_nonexistent (post_id : Nat) (post : Post) (s : Store)
    (h : ∀ r ∈ s.rows, r.id ≠ post_id) :
    update_post post_id post none s = (Result.httpError 404 msg404, s) := by
  unfold update_post
  rw [find?_eq_none_of_forall_ne h]

/-- C3 witness: the theorem instantiated on `sampleStore` at the absent id 7. -/
theorem update_nonexistent_witness :
    (∀ r ∈ sampleStore.rows, r.id ≠ 7) ∧
    update_post 7 ⟨"x", "y"⟩ none sampleStore = (Result.httpError 404 msg404, sampleStore) :=
  ⟨by decide, update_nonexistent 7 ⟨"x", "y"⟩ sampleStore (by decide)⟩

/-- C4: deleting an existing id succeeds, and a subsequent `get_post` on that
id returns the fixed 404. -/
theorem delete_then_get (post_id : Nat) (s : Store) (h : ∃ r ∈ s.rows, r.id = post_id) :
    ∃ (row : PostModel) (s2 : Store),
      delete_post post_id none s = (Result.ok row, s2) ∧
      get_post post_id none s2 = (Result.httpError 404 msg404, s2) := by
  obtain ⟨r, hr, hid⟩ := h
  have hsome : (s.rows.find? (fun x => x.id == post_id)).isSome := by
    cases hfind : s.rows.find? (fun x => x.id == post_id) with
    | some a => rfl
    | none =>
      have := List.find?_eq_none.mp hfind r hr
      simp [hid] at this
  obtain ⟨row, hrow⟩ := Option.isSome_iff_exists.mp hsome
  refine ⟨row, ⟨s.rows.filter (fun x => !(x.id == post_id)), s.nextId⟩, ?_, ?_⟩
  · unfold delete_post
    rw [hrow]
  · have hnone : (s.rows.filter (fun x => !(x.id == post_id))).find?
        (fun x => x.id == post_id) = none := by
      rw [List.find?_eq_none]
      intro x hx
      have := (List.mem_filter.mp hx).2
      simp at this
      simp [this]
    unfold get_post
    rw [hnone]

/-- C4 witness: the theorem instantiated on `sampleStore` at id 2. -/
theorem delete_then_get_witness :
    (∃ r ∈ sampleStore.rows, r.id = 2) ∧
    ∃ (row : PostModel) (s2 : Store),
      delete_post 2 none sampleStore = (Result.ok row, s2) ∧
      get_post 2 none s2 = (Result.httpError 404 msg404, s2) :=
  ⟨by decide, delete_then_get 2 sampleStore (by decide)⟩

/-- C5: deleting the id of a row present in a well-formed store succeeds, and
the response body is exactly that row as it stood before the deletion. -/
theorem delete_returns_prior_row (s : Store) (r : PostModel)
    (hWF : Store.WF s) (hr : r ∈ s.rows) :
    ∃ s2 : Store, delete_post r.id none s = (Result.ok r, s2) := by
  refine ⟨⟨s.rows.filter (fun x => !(x.id == r.id)), s.nextId⟩, ?_⟩
  unfold delete_post
  rw [find?_eq_of_mem_pairwise hWF.2 hr rfl]

/-- C5 witness: the theorem instantiated on `sampleStore` and its first row. -/
theorem delete_returns_prior_row_witness :
    Store.WF sampleStore ∧ (⟨1, "hola", "mundo"⟩ : PostModel) ∈ sampleStore.rows ∧
    ∃ s2 : Store,
      delete_post (1 : Nat) none sampleStore = (Result.ok ⟨1, "hola", "mundo"⟩, s2) :=
  ⟨by decide, by decide,
    delete_returns_prior_row sampleStore ⟨1, "hola", "mundo"⟩ (by decide) (by decide)⟩

/-- C6: for each id-addressed handler (`get_post`, `update_post`,
`delete_post`), the response is the fixed 404 (`msg404`) exactly when no row
carries the requested id. -/
theorem notfound_iff (post_id : Nat) (post : Post) (s : Store) :
    (((get_post post_id none s).1 = Result.httpError 404 msg404) ↔
        ∀ r ∈ s.rows, r.id ≠ post_id) ∧
    (((update_post post_id post none s).1 = Result.httpError 404 msg404) ↔
        ∀ r ∈ s.rows, r.id ≠ post_id) ∧
    (((delete_post post_id none s).1 = Result.httpError 404 msg404) ↔
        ∀ r ∈ s.rows, r.id ≠ post_id) := by
  cases hfind : s.rows.find? (fun x => x.id == post_id) with
  | none =>
    have hall : ∀ r ∈ s.rows, r.id ≠ post_id := by
      intro r hr hc
      have := List.find?_eq_none.mp hfind r hr
      simp [hc] at this
    refine ⟨?_, ?_, ?_⟩
    · simp only [get_post, hfind]
      simpa using hall
    · simp only [update_post, hfind]
      simpa using hall
    · simp only [delete_post, hfind]
      simpa using hall
  | some a =>
    have ha : a.id = post_id := by
      have := List.find?_some hfind
      simpa using this
    have hne : ¬(∀ r ∈ s.rows, r.id ≠ post_id) :=
      fun hall => hall a (List.mem_of_find?_eq_some hfind) ha
    refine ⟨?_, ?_, ?_⟩
    · simp [get_post, hfind, hne]
    · simp [update_post, hfind, hne]
    · simp [delete_post, hfind, hne]

/-- C7 counterexample: a persistence error raised by the post-commit
`db.refresh` in `create_post` (`src/main.py` line 92) yields the 500 response
with the underlying message, yet the store is NOT unchanged — the committed
insert persists, so the claim that every persistence error leaves the store
state equal to the initial one is false. -/
theorem store_error_rollback_cex :
    (create_post ⟨"t", "c"⟩ (some (StoreErr.afterCommit "boom")) sampleStore).1
        = Result.httpError 500 "boom" ∧
    (create_post ⟨"t", "c"⟩ (some (StoreErr.afterCommit "boom")) sampleStore).2
        ≠ sampleStore :=
  ⟨rfl, by decide⟩

/-- C7 (amended): a persistence error during a mutating handler always
produces a 500 carrying the underlying message; if it is raised at or before
the commit (and on every error path of `delete_post`, whose `try` block ends
at its commit) the rollback discards the pending write and the store is
unchanged, while an error raised by the post-commit `refresh` of
`create_post`, or of `update_post` on an existing id, leaves the store as
after the successful operation. -/
theorem store_error_responses (post : Post) (post_id : Nat) (e : String) (s : Store)
    (hfound : (s.rows.find? (fun r => r.id == post_id)).isSome) :
    create_post post (some (StoreErr.beforeCommit e)) s = (Result.httpError 500 e, s) ∧
    update_post post_id post (some (StoreErr.beforeCommit e)) s = (Result.httpError 500 e, s) ∧
    delete_post post_id (some e) s = (Result.httpError 500 e, s) ∧
    create_post post (some (StoreErr.afterCommit e)) s
        = (Result.httpError 500 e, (create_post post none s).2) ∧
    update_post post_id post (some (StoreErr.afterCommit e)) s
        = (Result.httpError 500 e, (update_post post_id post none s).2) := by
  obtain ⟨row0, hrow0⟩ := Option.isSome_iff_exists.mp hfound
  refine ⟨rfl, rfl, rfl, rfl, ?_⟩
  unfold update_post
  rw [hrow0]

/-- C7 witness: the amended theorem instantiated on `sampleStore` at id 1. -/
theorem store_error_responses_witness :
    (sampleStore.rows.find? (fun r => r.id == 1)).isSome ∧
    (create_post ⟨"a", "b"⟩ (some (StoreErr.beforeCommit "x")) sampleStore
        = (Result.httpError 500 "x", sampleStore) ∧
     update_post 1 ⟨"a", "b"⟩ (some (StoreErr.beforeCommit "x")) sampleStore
        = (Result.httpError 500 "x", sampleStore) ∧
     delete_post 1 (some "x") sampleStore = (Result.httpError 500 "x", sampleStore) ∧
     create_post ⟨"a", "b"⟩ (some (StoreErr.afterCommit "x")) sampleStore
        = (Result.httpError 500 "x", (create_post ⟨"a", "b"⟩ none sampleStore).2) ∧
     update_post 1 ⟨"a", "b"⟩ (some (StoreErr.afterCommit "x")) sampleStore
        = (Result.httpError 500 "x", (update_post 1 ⟨"a", "b"⟩ none sampleStore).2)) :=
  ⟨by decide, store_error_responses ⟨"a", "b"⟩ 1 "x" sampleStore (by decide)⟩

/-- C8: a successful update rewrites only the title and content of the
addressed row: the returned row keeps the requested id, the id sequence and
row count are untouched, every position keeps its id, and every row whose id
differs from the requested one is byte-for-byte unchanged. -/
theorem update_frame (post_id : Nat) (post : Post) (s : Store)
    (h : ∃ r ∈ s.rows, r.id = post_id) :
    ∃ (row : PostModel) (s2 : Store),
      update_post post_id post none s = (Result.ok row, s2) ∧
      row.id = post_id ∧ row.title = post.title ∧ row.content = post.content ∧
      s2.nextId = s.nextId ∧ s2.rows.length = s.rows.length ∧
      (∀ k : Nat, (s2.rows[k]?).map PostModel.id = (s.rows[k]?).map PostModel.id) ∧
      (∀ k : Nat, ∀ r : PostModel,
        s.rows[k]? = some r → r.id ≠ post_id → s2.rows[k]? = some r) := by
  obtain ⟨r0, hr0, hid0⟩ := h
  have hsome : (s.rows.find? (fun x => x.id == post_id)).isSome := by
    cases hfind : s.rows.find? (fun x => x.id == post_id) with
    | some a => rfl
    | none =>
      have := List.find?_eq_none.mp hfind r0 hr0
      simp [hid0] at this
  obtain ⟨row0, hrow0⟩ := Option.isSome_iff_exists.mp hsome
  have hida : row0.id = post_id := by
    have := List.find?_some hrow0
    simpa using this
  refine ⟨⟨row0.id, post.title, post.content⟩,
    ⟨s.rows.map (fun r => if r.id == post_id then ⟨r.id, post.title, post.content⟩ else r),
     s.nextId⟩, ?_, hida, rfl, rfl, rfl, List.length_map _ _, ?_, ?_⟩
  · unfold update_post
    rw [hrow0]
  · intro k
    rw [List.getElem?_map]
    cases hk : s.rows[k]? with
    | none => rfl
    | some r =>
      by_cases hc : r.id = post_id
      · simp [hc]
      · simp [hc]
  · intro k r hk hne
    rw [List.getElem?_map, hk]
    simp [hne]

/-- C8 witness: the theorem instantiated on `sampleStore` at id 1. -/
theorem update_frame_witness :
    (∃ r ∈ sampleStore.rows, r.id = 1) ∧
    ∃ (row : PostModel) (s2 : Store),
      update_post 1 ⟨"nuevo", "texto"⟩ none sampleStore = (Result.ok row, s2) ∧
      row.id = 1 ∧ row.title = "nuevo" ∧ row.content = "texto" ∧
      s2.nextId = sampleStore.nextId ∧ s2.rows.length = sampleStore.rows.length ∧
      (∀ k : Nat, (s2.rows[k]?).map PostModel.id = (sampleStore.rows[k]?).map PostModel.id) ∧
      (∀ k : Nat, ∀ r : PostModel,
        sampleStore.rows[k]? = some r → r.id ≠ 1 → s2.rows[k]? = some r) :=
  ⟨by decide, update_frame 1 ⟨"nuevo", "texto"⟩ sampleStore (by decide)⟩

/-- C9: the request body type `Post` has only `title` and `content`, and the
id of a created post is the store counter, identical for any two bodies: a
client cannot choose or supply it. -/
theorem create_id_server_generated (p q : Post) (s : Store) :
    ∃ (rp rq : PostModel) (sp sq : Store),
      create_post p none s = (Result.ok rp, sp) ∧
      create_post q none s = (Result.ok rq, sq) ∧
      rp.id = s.nextId ∧ rq.id = rp.id := by
  refine ⟨⟨s.nextId, p.title, p.content⟩, ⟨s.nextId, q.title, q.content⟩,
    ⟨s.rows ++ [⟨s.nextId, p.title, p.content⟩], s.nextId + 1⟩,
    ⟨s.rows ++ [⟨s.nextId, q.title, q.content⟩], s.nextId + 1⟩, ?_, ?_, rfl, rfl⟩
  · rfl
  · rfl

/-- C10: the read handlers (`read_root`, `get_posts`, `get_post`) hand the
store back unchanged on every path: success, not-found, and store error. -/
theorem reads_do_not_modify (err : Option String) (post_id : Nat) (s : Store) :
    (read_root s).2 = s ∧ (get_posts err s).2 = s ∧ (get_post post_id err s).2 = s := by
  refine ⟨rfl, ?_, ?_⟩
  · cases err <;> rfl
  · cases err with
    | some e => rfl
    | none =>
      simp only [get_post]
      cases hfind : s.rows.find? (fun r => r.id == post_id) <;> simp [hfind]

end BlogApi
